import Mathlib

/-!
Verification of the request-validation and payload-normalization layer of the
gemini-flash-api server (src/index.js, with src/unnamed/part_000 as a second
version of the same server).  The route handlers are embedded as pure Lean
functions over a JSON-like value type; the external inference client, the
HTTP framework and the multipart middleware are modelled as collaborators.
-/

namespace GFA

/-- A parsed JavaScript/JSON value, as the handlers see `req.body` and its
fields.  A missing field (JS `undefined`) is modelled as `Option.none` at use
sites. -/
inductive JsValue where
  | str : String → JsValue
  | num : Int → JsValue
  | bool : Bool → JsValue
  | null : JsValue
  | arr : List JsValue → JsValue
  | obj : List (String × JsValue) → JsValue

/-- Property lookup on an object literal (first binding wins; the embedded
request bodies carry no duplicate keys). -/
def lookupField : List (String × JsValue) → String → Option JsValue
  | [], _ => none
  | (k, v) :: rest, key => if k = key then some v else lookupField rest key

/-- JS property access `v[key]`: defined on objects, `undefined` (`none`) on
strings, numbers, booleans and arrays (the keys used are never array
indices). -/
def getField : JsValue → String → Option JsValue
  | JsValue.obj fields, key => lookupField fields key
  | _, _ => none

/-- JS truthiness of a possibly-missing value: `undefined`, `null`, `""`,
`0` and `false` are falsy; objects and arrays are truthy. -/
def truthy : Option JsValue → Bool
  | none => false
  | some (JsValue.str s) => !(s == "")
  | some (JsValue.num n) => !(n == 0)
  | some (JsValue.bool b) => b
  | some JsValue.null => false
  | some (JsValue.arr _) => true
  | some (JsValue.obj _) => true

/-- Drop leading whitespace characters. -/
def dropLeadingSpace : List Char → List Char
  | [] => []
  | c :: rest => if c.isWhitespace then dropLeadingSpace rest else c :: rest

/-- JS `String.prototype.trim`: remove whitespace from both ends (executable
by structural recursion, unlike `String.trim`). -/
def jsTrim (s : String) : String :=
  String.mk (List.reverse (dropLeadingSpace (List.reverse (dropLeadingSpace s.toList))))

/-- One entry of the `contents` array handed to the inference client:
a text part, an inline-data part (base64 payload plus declared MIME type),
or a non-string value forwarded verbatim. -/
inductive Part where
  | text : String → Part
  | inlineData : String → String → Part
  | raw : JsValue → Part

/-- An uploaded file as multer delivers it: in-memory byte buffer (each entry
a byte value `0..255`) and the client-declared MIME type. -/
structure UploadedFile where
  buffer : List Nat
  mimetype : String

/-- Route outcome before the upstream call: an HTTP error (status, message)
or the normalized payload. -/
inductive RouteResult (α : Type) where
  | error : Nat → String → RouteResult α
  | ok : α → RouteResult α

/-- The standard base64 alphabet. -/
def base64Alphabet : List Char :=
  "ABCDEFGHIJKLMNOPQRSTUVWXYZabcdefghijklmnopqrstuvwxyz0123456789+/".toList

/-- Digit of the base64 alphabet. -/
def b64Char (n : Nat) : Char := base64Alphabet.getD n 'A'

/-- `toB64`: `Buffer.from(buf).toString("base64")` — standard base64 with
`=` padding, three bytes to four digits. -/
def toB64 : List Nat → String
  | [] => ""
  | [a] => String.mk [b64Char (a / 4 % 64), b64Char (a % 4 * 16), '=', '=']
  | [a, b] =>
      String.mk [b64Char (a / 4 % 64), b64Char (a % 4 * 16 + b / 16),
        b64Char (b % 16 * 4), '=']
  | a :: b :: c :: rest =>
      String.mk [b64Char (a / 4 % 64), b64Char (a % 4 * 16 + b / 16),
        b64Char (b % 16 * 4 + c / 64), b64Char (c % 64)] ++ toB64 rest

/-- `const { prompt } = req.body || {}`. -/
def reqPrompt (b : Option JsValue) : Option JsValue :=
  getField (b.getD (JsValue.obj [])) "prompt"

/-- `typeof prompt === "string" && prompt.trim() ? prompt.trim() : ""`:
the trimmed prompt when it is a string that is non-empty after trimming,
otherwise the empty string. -/
def promptTextOf : Option JsValue → String
  | some (JsValue.str s) => if jsTrim s = "" then "" else jsTrim s
  | _ => ""

/-- POST /generate-text (src/index.js lines 57-72): reject unless the prompt
is a string non-empty after trimming; on success the contents are the single
trimmed text part. -/
def generateTextNormalize (b : Option JsValue) : RouteResult (List Part) :=
  let promptText := promptTextOf (reqPrompt b)
  if promptText = "" then
    RouteResult.error 400 "\x27prompt\x27 is required (string)"
  else
    RouteResult.ok [Part.text promptText]

/-- Allow-list of the image route (src/index.js line 169). -/
def imageAllowed : List String :=
  ["image/png", "image/jpeg", "image/webp", "image/gif"]

/-- Allow-list of the document route (src/index.js lines 209-215). -/
def docAllowed : List String :=
  ["application/pdf", "text/plain", "text/markdown", "application/msword",
    "application/vnd.openxmlformats-officedocument.wordprocessingml.document"]

/-- Allow-list of the audio route (src/index.js lines 252-259). -/
def audioAllowed : List String :=
  ["audio/webm", "audio/wav", "audio/mpeg", "audio/mp4", "audio/ogg", "audio/opus"]

/-- Common body of the three attachment handlers of src/index.js
(lines 162-196, 198-242, 244-285): reject 400 when the file is absent,
415 when its declared MIME type is not allow-listed, otherwise build
`[...(promptText ? [promptText] : []), {inlineData: {data, mimeType}}]`. -/
def attachmentNormalize (fileMsg : String) (typeMsg : String)
    (allowed : List String) (b : Option JsValue) (file : Option UploadedFile) :
    RouteResult (List Part) :=
  match file with
  | none => RouteResult.error 400 fileMsg
  | some f =>
      if !(allowed.contains f.mimetype) then
        RouteResult.error 415 (typeMsg ++ f.mimetype)
      else
        let promptText := promptTextOf (reqPrompt b)
        RouteResult.ok ((if promptText = "" then [] else [Part.text promptText]) ++
          [Part.inlineData (toB64 f.buffer) f.mimetype])

/-- POST /generate-image (src/index.js lines 162-196). -/
def generateImageNormalize : Option JsValue → Option UploadedFile → RouteResult (List Part) :=
  attachmentNormalize "\x27image\x27 file is required" "Unsupported image type: " imageAllowed

/-- POST /generate-from-document (src/index.js lines 198-242). -/
def generateFromDocumentNormalize :
    Option JsValue → Option UploadedFile → RouteResult (List Part) :=
  attachmentNormalize "Document file is required." "Unsupported document type: " docAllowed

/-- POST /generate-from-audio (src/index.js lines 244-285). -/
def generateFromAudioNormalize :
    Option JsValue → Option UploadedFile → RouteResult (List Part) :=
  attachmentNormalize "Audio file is required." "Unsupported audio type: " audioAllowed

/-- C1: on every attachment route, once the file is present and its MIME type
allow-listed, the normalized contents are
`[TextPart(trimmedPrompt)?, InlinePart(base64(bytes), declaredMimeType)]` —
the text part appears exactly when the prompt is a string non-empty after
trimming (a missing, non-string or whitespace-only prompt is not rejected),
and the inline part is always the last element. -/
theorem C1_attachment_parts (fileMsg typeMsg : String) (allowed : List String)
    (b : Option JsValue) (f : UploadedFile)
    (hmime : allowed.contains f.mimetype = true) :
    (∀ s, reqPrompt b = some (JsValue.str s) → jsTrim s ≠ "" →
        attachmentNormalize fileMsg typeMsg allowed b (some f) =
          RouteResult.ok
            [Part.text (jsTrim s), Part.inlineData (toB64 f.buffer) f.mimetype]) ∧
    ((∀ s, reqPrompt b = some (JsValue.str s) → jsTrim s = "") →
        attachmentNormalize fileMsg typeMsg allowed b (some f) =
          RouteResult.ok [Part.inlineData (toB64 f.buffer) f.mimetype]) := by
  have hm : f.mimetype ∈ allowed := by simpa using hmime
  constructor
  · intro s hr hs
    simp [attachmentNormalize, hm, promptTextOf, hr, hs]
  · intro hall
    cases hr : reqPrompt b with
    | none => simp [attachmentNormalize, hm, promptTextOf, hr]
    | some v =>
        cases v with
        | str s =>
            have hs : jsTrim s = "" := hall s hr
            simp [attachmentNormalize, hm, promptTextOf, hr, hs]
        | num n => simp [attachmentNormalize, hm, promptTextOf, hr]
        | bool c => simp [attachmentNormalize, hm, promptTextOf, hr]
        | null => simp [attachmentNormalize, hm, promptTextOf, hr]
        | arr xs => simp [attachmentNormalize, hm, promptTextOf, hr]
        | obj fs => simp [attachmentNormalize, hm, promptTextOf, hr]

/-- Witness for C1: image upload `[1,2,3]` of type image/png with prompt
`" describe "` normalizes to the trimmed text part followed by the inline
part, and the same upload with no prompt to the inline part alone. -/
theorem C1_attachment_parts_witness :
    generateImageNormalize (some (JsValue.obj [("prompt", JsValue.str " describe ")]))
        (some (UploadedFile.mk [1, 2, 3] "image/png")) =
      RouteResult.ok [Part.text "describe", Part.inlineData "AQID" "image/png"] ∧
    generateImageNormalize (some (JsValue.obj []))
        (some (UploadedFile.mk [1, 2, 3] "image/png")) =
      RouteResult.ok [Part.inlineData "AQID" "image/png"] :=
  ⟨(C1_attachment_parts "\x27image\x27 file is required" "Unsupported image type: "
      imageAllowed (some (JsValue.obj [("prompt", JsValue.str " describe ")]))
      (UploadedFile.mk [1, 2, 3] "image/png") (by decide)).1 " describe " rfl (by decide),
   (C1_attachment_parts "\x27image\x27 file is required" "Unsupported image type: "
      imageAllowed (some (JsValue.obj []))
      (UploadedFile.mk [1, 2, 3] "image/png") (by decide)).2 (by intro s h; cases h)⟩

/-- C2: on every attachment route a missing file yields the 400
ValidationError (checked before any MIME-type test), and a present file whose
declared MIME type is outside the route's fixed allow-list yields the 415
UnsupportedMediaError whose message names that MIME type, for every file
content; the three allow-lists are the fixed ones of src/index.js. -/
theorem C2_media_checks (b : Option JsValue) (f : UploadedFile) :
    generateImageNormalize b none =
      RouteResult.error 400 "\x27image\x27 file is required" ∧
    generateFromDocumentNormalize b none =
      RouteResult.error 400 "Document file is required." ∧
    generateFromAudioNormalize b none =
      RouteResult.error 400 "Audio file is required." ∧
    (imageAllowed.contains f.mimetype = false →
        generateImageNormalize b (some f) =
          RouteResult.error 415 ("Unsupported image type: " ++ f.mimetype)) ∧
    (docAllowed.contains f.mimetype = false →
        generateFromDocumentNormalize b (some f) =
          RouteResult.error 415 ("Unsupported document type: " ++ f.mimetype)) ∧
    (audioAllowed.contains f.mimetype = false →
        generateFromAudioNormalize b (some f) =
          RouteResult.error 415 ("Unsupported audio type: " ++ f.mimetype)) ∧
    imageAllowed = ["image/png", "image/jpeg", "image/webp", "image/gif"] ∧
    docAllowed = ["application/pdf", "text/plain", "text/markdown",
      "application/msword",
      "application/vnd.openxmlformats-officedocument.wordprocessingml.document"] ∧
    audioAllowed = ["audio/webm", "audio/wav", "audio/mpeg", "audio/mp4",
      "audio/ogg", "audio/opus"] := by
  refine ⟨rfl, rfl, rfl, ?_, ?_, ?_, rfl, rfl, rfl⟩
  · intro h
    have hm : f.mimetype ∉ imageAllowed := by simpa using h
    simp [generateImageNormalize, attachmentNormalize, hm]
  · intro h
    have hm : f.mimetype ∉ docAllowed := by simpa using h
    simp [generateFromDocumentNormalize, attachmentNormalize, hm]
  · intro h
    have hm : f.mimetype ∉ audioAllowed := by simpa using h
    simp [generateFromAudioNormalize, attachmentNormalize, hm]

/-- Witness for C2: a file of type image/bmp on the image route is refused
with 415 and a message naming image/bmp, while a missing file is refused with
400 before any MIME consideration. -/
theorem C2_media_checks_witness :
    generateImageNormalize none (some (UploadedFile.mk [] "image/bmp")) =
      RouteResult.error 415 "Unsupported image type: image/bmp" ∧
    generateFromAudioNormalize none none =
      RouteResult.error 400 "Audio file is required." :=
  ⟨(C2_media_checks none (UploadedFile.mk [] "image/bmp")).2.2.2.1 (by decide),
   (C2_media_checks none (UploadedFile.mk [] "image/bmp")).2.2.1⟩

/-- C3: the text-only route yields a 400 ValidationError exactly when `prompt`
is missing, not a string, or empty after trimming; otherwise the normalized
payload is the single-element Part sequence `[TextPart(trimmedPrompt)]`. -/
theorem C3_text_validation (b : Option JsValue) :
    ((∀ s, reqPrompt b = some (JsValue.str s) → jsTrim s = "") →
        generateTextNormalize b =
          RouteResult.error 400 "\x27prompt\x27 is required (string)") ∧
    (∀ s, reqPrompt b = some (JsValue.str s) → jsTrim s ≠ "" →
        generateTextNormalize b = RouteResult.ok [Part.text (jsTrim s)]) ∧
    (∀ s m, generateTextNormalize b = RouteResult.error s m →
        s = 400 ∧ m = "\x27prompt\x27 is required (string)") := by
  refine ⟨?_, ?_, ?_⟩
  · intro hall
    cases hr : reqPrompt b with
    | none => simp [generateTextNormalize, promptTextOf, hr]
    | some v =>
        cases v with
        | str s =>
            have hs : jsTrim s = "" := hall s hr
            simp [generateTextNormalize, promptTextOf, hr, hs]
        | num n => simp [generateTextNormalize, promptTextOf, hr]
        | bool c => simp [generateTextNormalize, promptTextOf, hr]
        | null => simp [generateTextNormalize, promptTextOf, hr]
        | arr xs => simp [generateTextNormalize, promptTextOf, hr]
        | obj fs => simp [generateTextNormalize, promptTextOf, hr]
  · intro s hr hs
    simp [generateTextNormalize, promptTextOf, hr, hs]
  · intro s m herr
    unfold generateTextNormalize at herr
    by_cases hp : promptTextOf (reqPrompt b) = ""
    · rw [if_pos hp] at herr
      cases herr
      exact ⟨rfl, rfl⟩
    · rw [if_neg hp] at herr
      cases herr

/-- Witness for C3: the scenario body `{"prompt":"  hi  "}` normalizes to
`[TextPart("hi")]`. -/
theorem C3_text_validation_witness :
    generateTextNormalize (some (JsValue.obj [("prompt", JsValue.str "  hi  ")])) =
      RouteResult.ok [Part.text "hi"] :=
  (C3_text_validation (some (JsValue.obj [("prompt", JsValue.str "  hi  ")]))).2.1
    "  hi  " rfl (by decide)

/-- `const MODEL = "gemini-2.5-flash"` (src/index.js line 17). -/
def indexMODEL : String := "gemini-2.5-flash"

/-- `const { conversation, instruction } = req.body || {}` — the conversation
field. -/
def reqConversation (b : Option JsValue) : Option JsValue :=
  getField (b.getD (JsValue.obj [])) "conversation"

/-- `const { conversation, instruction } = req.body || {}` — the instruction
field. -/
def reqInstruction (b : Option JsValue) : Option JsValue :=
  getField (b.getD (JsValue.obj [])) "instruction"

/-- `!msg || typeof msg !== "object"` fails for `null` (falsy) and for
primitives (`typeof` is not "object"); arrays and objects pass. -/
def isObjectTruthy : JsValue → Bool
  | JsValue.arr _ => true
  | JsValue.obj _ => true
  | _ => false

/-- `["user", "model"].includes(role)`. -/
def roleOk : Option JsValue → Bool
  | some (JsValue.str r) => r == "user" || r == "model"
  | _ => false

/-- `typeof text === "string" && text.trim()` truthy. -/
def textOk : Option JsValue → Bool
  | some (JsValue.str t) => !(jsTrim t == "")
  | _ => false

/-- The per-turn checks of the /api/chat loop (src/index.js lines 93-110),
with the message of the first failed check. -/
def validateTurn (t : JsValue) : Option (Nat × String) :=
  if !isObjectTruthy t then
    some (400, "Setiap item conversation harus object")
  else if !roleOk (getField t "role") then
    some (400, "role harus \x27user\x27 atau \x27model\x27")
  else if !textOk (getField t "text") then
    some (400, "text harus string dan tidak kosong")
  else
    none

/-- The `for (const msg of conversation)` loop: first failing turn wins. -/
def validateConversation : List JsValue → Option (Nat × String)
  | [] => none
  | t :: ts =>
      match validateTurn t with
      | some e => some e
      | none => validateConversation ts

/-- A message of the outbound `contents` array:
`{ role, parts: [{ text }] }`. -/
structure ChatMessage where
  role : String
  parts : List String

/-- `({ role, text }) => ({ role, parts: [{ text }] })`.  Validation
guarantees that both fields are strings, so the `""` fallbacks are never
reached on a validated turn. -/
def toChatMessage (t : JsValue) : ChatMessage :=
  { role := match getField t "role" with
      | some (JsValue.str r) => r
      | _ => ""
    parts := [match getField t "text" with
      | some (JsValue.str x) => x
      | _ => ""] }

/-- The fixed persona placed in `requestPayload.config.systemInstruction`
(src/index.js lines 136-145). -/
def jakselPersona : String :=
  "Kamu adalah asisten AI yang fun dan friendly. Selalu gunakan bahasa gaul kekinian ala anak Jaksel dengan rules:\n          - Mix Bahasa Indonesia dengan English words\n          - Sering pakai kata: literally, basically, actually, like, seriously\n          - Add kata seru seperti: slay, bestie, guys, gals\n          - Gunakan bahasa gaul: gue/gw, lu, kyk, bgt, sih, dong, deh\n          - Keep it casual dan fun vibes\n          - Tetap helpful dan informatif\n          - End chat dengan relevant emojis\n          - Kalau ngasih code tetap professional\n          - terdenger seperti gadis muda gen z gaul yang asik dan friendly"

/-- The outbound chat payload (src/index.js lines 122-147): model, contents,
and the system instruction of `config`.  The fixed `generationConfig`
(temperature 0.8, maxOutputTokens 1000) and `safetySettings` entries are
constants not modelled field-by-field (the temperature is a float literal). -/
structure ChatPayload where
  model : String
  contents : List ChatMessage
  systemInstruction : String

/-- `typeof instruction === "string" && instruction.trim() ?
instruction.trim() : null` (src/index.js lines 117-120).  The computed value
is assigned to the local `systemInstruction` variable, which the rest of the
handler never reads: `requestPayload.config.systemInstruction` is the fixed
persona string. -/
def normalizedInstruction : Option JsValue → Option String
  | some (JsValue.str s) => if jsTrim s = "" then none else some (jsTrim s)
  | _ => none

/-- POST /api/chat on the already-extracted conversation value
(src/index.js lines 86-147): `Array.isArray(conversation) &&
conversation.length !== 0` gate, the per-turn loop, then `requestPayload`
with the mapped contents and the hardcoded persona as
`config.systemInstruction`. -/
def apiChatNormalizeCore : Option JsValue → RouteResult ChatPayload
  | some (JsValue.arr turns) =>
      if turns.length = 0 then
        RouteResult.error 400
          "Field \x27conversation\x27 wajib berupa array dan tidak boleh kosong"
      else
        match validateConversation turns with
        | some e => RouteResult.error e.1 e.2
        | none =>
            RouteResult.ok
              { model := indexMODEL
                contents := turns.map toChatMessage
                systemInstruction := jakselPersona }
  | _ =>
      RouteResult.error 400
        "Field \x27conversation\x27 wajib berupa array dan tidak boleh kosong"

/-- POST /api/chat (src/index.js lines 82-159). -/
def apiChatNormalize (b : Option JsValue) : RouteResult ChatPayload :=
  apiChatNormalizeCore (reqConversation b)

/-- The conjunction of the three per-turn checks, used to state C4. -/
def turnGood (t : JsValue) : Bool :=
  isObjectTruthy t && roleOk (getField t "role") && textOk (getField t "text")

theorem validateTurn_eq_none_iff (t : JsValue) :
    validateTurn t = none ↔ turnGood t = true := by
  unfold validateTurn turnGood
  by_cases h1 : isObjectTruthy t = true <;>
    by_cases h2 : roleOk (getField t "role") = true <;>
      by_cases h3 : textOk (getField t "text") = true <;>
        simp [h1, h2, h3]

theorem validateTurn_status (t : JsValue) (e : Nat × String)
    (h : validateTurn t = some e) : e.1 = 400 := by
  unfold validateTurn at h
  split at h
  · cases h
    rfl
  · split at h
    · cases h
      rfl
    · split at h
      · cases h
        rfl
      · cases h

theorem validateConversation_eq_none_iff (ts : List JsValue) :
    validateConversation ts = none ↔ ∀ t ∈ ts, turnGood t = true := by
  induction ts with
  | nil => simp [validateConversation]
  | cons t ts ih =>
      unfold validateConversation
      cases hv : validateTurn t with
      | some e =>
          simp only [List.mem_cons]
          constructor
          · intro h
            cases h
          · intro h
            have := (validateTurn_eq_none_iff t).mpr (h t (Or.inl rfl))
            rw [this] at hv
            cases hv
      | none =>
          rw [ih]
          have ht := (validateTurn_eq_none_iff t).mp hv
          simp [ht]

theorem validateConversation_status (ts : List JsValue) (e : Nat × String)
    (h : validateConversation ts = some e) : e.1 = 400 := by
  induction ts with
  | nil => cases h
  | cons t ts ih =>
      unfold validateConversation at h
      cases hv : validateTurn t with
      | some e2 =>
          rw [hv] at h
          cases h
          exact validateTurn_status t e hv
      | none =>
          rw [hv] at h
          exact ih h

/-- C4: chat validation fails with 400 exactly when the conversation is not a
non-empty array, some turn is not a truthy object with role exactly
"user"/"model", or some turn's text is not a string non-empty after trimming;
on success the contents are the turns mapped in order, each to one message
with its role preserved and one text part equal to the original untrimmed
text. -/
theorem C4_chat_validation (b : Option JsValue) :
    (∀ s m, apiChatNormalize b = RouteResult.error s m →
        apiChatNormalize b = RouteResult.error 400 m) ∧
    ((∃ payload, apiChatNormalize b = RouteResult.ok payload) ↔
        (∃ turns, reqConversation b = some (JsValue.arr turns) ∧ turns ≠ [] ∧
          ∀ t ∈ turns, turnGood t = true)) ∧
    (∀ turns payload, reqConversation b = some (JsValue.arr turns) →
        apiChatNormalize b = RouteResult.ok payload →
        payload.contents = turns.map toChatMessage ∧
        ∀ t ∈ turns, ∃ r x, getField t "role" = some (JsValue.str r) ∧
          (r = "user" ∨ r = "model") ∧
          getField t "text" = some (JsValue.str x) ∧ jsTrim x ≠ "" ∧
          toChatMessage t = { role := r, parts := [x] }) := by
  refine ⟨?_, ⟨?_, ?_⟩, ?_⟩
  · intro s m herr
    have h400 : s = 400 := by
      unfold apiChatNormalize at herr
      cases hc : reqConversation b with
      | none =>
          rw [hc] at herr
          simp only [apiChatNormalizeCore] at herr
          cases herr
          rfl
      | some v =>
          cases v with
          | arr turns =>
              rw [hc] at herr
              simp only [apiChatNormalizeCore] at herr
              by_cases hlen : turns.length = 0
              · rw [if_pos hlen] at herr
                cases herr
                rfl
              · rw [if_neg hlen] at herr
                cases hvc : validateConversation turns with
                | some e =>
                    rw [hvc] at herr
                    cases herr
                    exact validateConversation_status turns e hvc
                | none =>
                    rw [hvc] at herr
                    cases herr
          | str sv =>
              rw [hc] at herr
              simp only [apiChatNormalizeCore] at herr
              cases herr
              rfl
          | num n =>
              rw [hc] at herr
              simp only [apiChatNormalizeCore] at herr
              cases herr
              rfl
          | bool c =>
              rw [hc] at herr
              simp only [apiChatNormalizeCore] at herr
              cases herr
              rfl
          | null =>
              rw [hc] at herr
              simp only [apiChatNormalizeCore] at herr
              cases herr
              rfl
          | obj fs =>
              rw [hc] at herr
              simp only [apiChatNormalizeCore] at herr
              cases herr
              rfl
    exact h400 ▸ herr
  · rintro ⟨payload, hp⟩
    unfold apiChatNormalize at hp
    cases hc : reqConversation b with
    | none =>
        rw [hc] at hp
        simp [apiChatNormalizeCore] at hp
    | some v =>
        cases v with
        | arr turns =>
            rw [hc] at hp
            simp only [apiChatNormalizeCore] at hp
            by_cases hlen : turns.length = 0
            · rw [if_pos hlen] at hp
              cases hp
            · rw [if_neg hlen] at hp
              cases hvc : validateConversation turns with
              | some e =>
                  rw [hvc] at hp
                  cases hp
              | none =>
                  exact ⟨turns, rfl, by intro h; exact hlen (by simp [h]),
                    (validateConversation_eq_none_iff turns).mp hvc⟩
        | str sv => rw [hc] at hp; simp [apiChatNormalizeCore] at hp
        | num n => rw [hc] at hp; simp [apiChatNormalizeCore] at hp
        | bool c => rw [hc] at hp; simp [apiChatNormalizeCore] at hp
        | null => rw [hc] at hp; simp [apiChatNormalizeCore] at hp
        | obj fs => rw [hc] at hp; simp [apiChatNormalizeCore] at hp
  · rintro ⟨turns, hc, hne, hall⟩
    refine ⟨⟨indexMODEL, turns.map toChatMessage, jakselPersona⟩, ?_⟩
    unfold apiChatNormalize
    rw [hc]
    simp only [apiChatNormalizeCore]
    rw [if_neg (by simpa using hne)]
    rw [(validateConversation_eq_none_iff turns).mpr hall]
  · intro turns payload hc hp
    unfold apiChatNormalize at hp
    rw [hc] at hp
    simp only [apiChatNormalizeCore] at hp
    by_cases hlen : turns.length = 0
    · rw [if_pos hlen] at hp
      cases hp
    · rw [if_neg hlen] at hp
      cases hvc : validateConversation turns with
      | some e =>
          rw [hvc] at hp
          cases hp
      | none =>
          rw [hvc] at hp
          cases hp
          constructor
          · rfl
          · intro t ht
            have hg : turnGood t = true :=
              (validateConversation_eq_none_iff turns).mp hvc t ht
            unfold turnGood at hg
            rw [Bool.and_eq_true, Bool.and_eq_true] at hg
            obtain ⟨⟨hobj, hrole⟩, htext⟩ := hg
            cases hrf : getField t "role" with
            | none =>
                rw [hrf] at hrole
                simp [roleOk] at hrole
            | some rv =>
                cases rv with
                | str r =>
                    cases htf : getField t "text" with
                    | none =>
                        rw [htf] at htext
                        simp [textOk] at htext
                    | some tv =>
                        cases tv with
                        | str x =>
                            rw [hrf] at hrole
                            rw [htf] at htext
                            refine ⟨r, x, rfl, ?_, rfl, ?_, ?_⟩
                            · simpa [roleOk] using hrole
                            · simpa [textOk] using htext
                            · unfold toChatMessage
                              rw [hrf, htf]
                        | num n =>
                            rw [htf] at htext
                            simp [textOk] at htext
                        | bool c =>
                            rw [htf] at htext
                            simp [textOk] at htext
                        | null =>
                            rw [htf] at htext
                            simp [textOk] at htext
                        | arr xs =>
                            rw [htf] at htext
                            simp [textOk] at htext
                        | obj fs =>
                            rw [htf] at htext
                            simp [textOk] at htext
                | num n =>
                    rw [hrf] at hrole
                    simp [roleOk] at hrole
                | bool c =>
                    rw [hrf] at hrole
                    simp [roleOk] at hrole
                | null =>
                    rw [hrf] at hrole
                    simp [roleOk] at hrole
                | arr xs =>
                    rw [hrf] at hrole
                    simp [roleOk] at hrole
                | obj fs =>
                    rw [hrf] at hrole
                    simp [roleOk] at hrole

/-- Witness for C4: the scenario conversation `[{role:"admin", text:"x"}]` is
rejected with status 400 (role error). -/
theorem C4_chat_validation_witness :
    apiChatNormalize (some (JsValue.obj [("conversation",
        JsValue.arr [JsValue.obj [("role", JsValue.str "admin"),
          ("text", JsValue.str "x")]])])) =
      RouteResult.error 400 "role harus \x27user\x27 atau \x27model\x27" :=
  (C4_chat_validation (some (JsValue.obj [("conversation",
      JsValue.arr [JsValue.obj [("role", JsValue.str "admin"),
        ("text", JsValue.str "x")]])]))).1
    400 "role harus \x27user\x27 atau \x27model\x27" rfl

/-- C5 counterexample: a valid chat request carrying instruction "be brief"
still goes out with the hardcoded persona as the system instruction — the
outbound payload does not carry the supplied instruction, refuting the claim
that it does. -/
theorem C5_instruction_counterexample :
    apiChatNormalize (some (JsValue.obj
        [("conversation", JsValue.arr [JsValue.obj
            [("role", JsValue.str "user"), ("text", JsValue.str "hi")]]),
         ("instruction", JsValue.str "be brief")])) =
      RouteResult.ok
        { model := indexMODEL
          contents := [{ role := "user", parts := ["hi"] }]
          systemInstruction := jakselPersona } ∧
    jakselPersona ≠ "be brief" ∧
    normalizedInstruction (some (JsValue.str "be brief")) = some "be brief" :=
  ⟨rfl, by decide, by decide⟩

/-- C5 amended: the chat handler computes the trimmed optional instruction
(lines 117-120) but never uses it; for every successful chat request the
outbound payload's system instruction is the fixed persona string, regardless
of the supplied instruction. -/
theorem C5_instruction_amended (b : Option JsValue) (payload : ChatPayload)
    (s : String) (hok : apiChatNormalize b = RouteResult.ok payload)
    (hs : jsTrim s ≠ "") :
    payload.systemInstruction = jakselPersona ∧
    normalizedInstruction (some (JsValue.str s)) = some (jsTrim s) ∧
    normalizedInstruction none = none := by
  refine ⟨?_, ?_, rfl⟩
  · unfold apiChatNormalize at hok
    cases hc : reqConversation b with
    | none =>
        rw [hc] at hok
        simp [apiChatNormalizeCore] at hok
    | some v =>
        cases v with
        | arr turns =>
            rw [hc] at hok
            simp only [apiChatNormalizeCore] at hok
            by_cases hlen : turns.length = 0
            · rw [if_pos hlen] at hok
              cases hok
            · rw [if_neg hlen] at hok
              cases hvc : validateConversation turns with
              | some e =>
                  rw [hvc] at hok
                  cases hok
              | none =>
                  rw [hvc] at hok
                  cases hok
                  rfl
        | str sv => rw [hc] at hok; simp [apiChatNormalizeCore] at hok
        | num n => rw [hc] at hok; simp [apiChatNormalizeCore] at hok
        | bool c => rw [hc] at hok; simp [apiChatNormalizeCore] at hok
        | null => rw [hc] at hok; simp [apiChatNormalizeCore] at hok
        | obj fs => rw [hc] at hok; simp [apiChatNormalizeCore] at hok
  · simp [normalizedInstruction, hs]

/-- Witness for the amended C5 at a concrete valid chat request with
instruction " be brief ". -/
theorem C5_instruction_amended_witness :
    (ChatPayload.mk indexMODEL [ChatMessage.mk "user" ["hi"]]
        jakselPersona).systemInstruction = jakselPersona ∧
    normalizedInstruction (some (JsValue.str " be brief ")) = some "be brief" ∧
    normalizedInstruction none = none :=
  C5_instruction_amended
    (some (JsValue.obj
      [("conversation", JsValue.arr [JsValue.obj
          [("role", JsValue.str "user"), ("text", JsValue.str "hi")]])]))
    (ChatPayload.mk indexMODEL [ChatMessage.mk "user" ["hi"]] jakselPersona)
    " be brief " rfl (by decide)

/-- Outcome of the external `ai.models.generateContent` call: a response with
the optional `text` and `output` fields, or a thrown error with an optional
`message`. -/
inductive UpstreamOutcome where
  | ok : Option String → Option String → UpstreamOutcome
  | err : Option String → UpstreamOutcome

/-- The uniform success/failure envelope: 200 `{result}` or status
`{message}`. -/
inductive RouteResponse where
  | success : String → RouteResponse
  | failure : Nat → String → RouteResponse

/-- `response?.text ?? response?.output ?? ""`. -/
def extractText (t o : Option String) : String := t.getD (o.getD "")

/-- `error?.message || "Internal error"`: the catch branch falls back when
the message is absent or empty (falsy). -/
def catchMessage : Option String → String
  | some m => if m == "" then "Internal error" else m
  | none => "Internal error"

/-- The shared try/catch shape of every handler: a failed validation returns
its response without calling the collaborator; otherwise the collaborator is
awaited, its thrown errors caught into a 500 `{message}` response. -/
def runRoute {α : Type} (norm : RouteResult α)
    (upstream : α → UpstreamOutcome) : RouteResponse :=
  match norm with
  | RouteResult.error s m => RouteResponse.failure s m
  | RouteResult.ok payload =>
      match upstream payload with
      | UpstreamOutcome.ok t o => RouteResponse.success (extractText t o)
      | UpstreamOutcome.err m => RouteResponse.failure 500 (catchMessage m)

/-- POST /generate-text, full request cycle. -/
def generateTextRoute (b : Option JsValue)
    (u : List Part → UpstreamOutcome) : RouteResponse :=
  runRoute (generateTextNormalize b) u

/-- POST /generate-image, full request cycle. -/
def generateImageRoute (b : Option JsValue) (file : Option UploadedFile)
    (u : List Part → UpstreamOutcome) : RouteResponse :=
  runRoute (generateImageNormalize b file) u

/-- POST /generate-from-document, full request cycle. -/
def generateFromDocumentRoute (b : Option JsValue) (file : Option UploadedFile)
    (u : List Part → UpstreamOutcome) : RouteResponse :=
  runRoute (generateFromDocumentNormalize b file) u

/-- POST /generate-from-audio, full request cycle. -/
def generateFromAudioRoute (b : Option JsValue) (file : Option UploadedFile)
    (u : List Part → UpstreamOutcome) : RouteResponse :=
  runRoute (generateFromAudioNormalize b file) u

/-- POST /api/chat, full request cycle. -/
def apiChatRoute (b : Option JsValue)
    (u : ChatPayload → UpstreamOutcome) : RouteResponse :=
  runRoute (apiChatNormalize b) u

/-- C6: on every route, a validation or media-type error is returned as-is,
independently of the collaborator (which is never consulted); an error thrown
by the collaborator is caught into a 500 `{message}` response whose message
is the error's text when non-empty and "Internal error" otherwise; and each
route handler is exactly this composition. -/
theorem C6_catchall {α : Type} (norm : RouteResult α)
    (u u2 : α → UpstreamOutcome) (b : Option JsValue)
    (file : Option UploadedFile) (ut : List Part → UpstreamOutcome)
    (uc : ChatPayload → UpstreamOutcome) :
    (∀ s msg, norm = RouteResult.error s msg →
        runRoute norm u = RouteResponse.failure s msg ∧
        runRoute norm u2 = runRoute norm u) ∧
    (∀ p em, norm = RouteResult.ok p → u p = UpstreamOutcome.err em →
        runRoute norm u = RouteResponse.failure 500 (catchMessage em)) ∧
    (∀ m, m ≠ "" → catchMessage (some m) = m) ∧
    catchMessage (some "") = "Internal error" ∧
    catchMessage none = "Internal error" ∧
    generateTextRoute b ut = runRoute (generateTextNormalize b) ut ∧
    generateImageRoute b file ut = runRoute (generateImageNormalize b file) ut ∧
    generateFromDocumentRoute b file ut =
      runRoute (generateFromDocumentNormalize b file) ut ∧
    generateFromAudioRoute b file ut =
      runRoute (generateFromAudioNormalize b file) ut ∧
    apiChatRoute b uc = runRoute (apiChatNormalize b) uc := by
  refine ⟨?_, ?_, ?_, rfl, rfl, rfl, rfl, rfl, rfl, rfl⟩
  · intro s msg he
    subst he
    exact ⟨rfl, rfl⟩
  · intro p em hok herr
    subst hok
    simp [runRoute, herr]
  · intro m hm
    simp [catchMessage, hm]

/-- Witness for C6: a validation failure bypasses a throwing collaborator,
and a collaborator throw on a valid request surfaces as 500 with the error
text. -/
theorem C6_catchall_witness :
    runRoute (generateTextNormalize (some (JsValue.obj [])))
        (fun _ => UpstreamOutcome.err (some "boom")) =
      RouteResponse.failure 400 "\x27prompt\x27 is required (string)" ∧
    runRoute (RouteResult.ok [Part.text "hi"])
        (fun _ => UpstreamOutcome.err (some "boom")) =
      RouteResponse.failure 500 "boom" := by
  constructor
  · exact ((C6_catchall (generateTextNormalize (some (JsValue.obj [])))
      (fun _ => UpstreamOutcome.err (some "boom"))
      (fun _ => UpstreamOutcome.err none) none none
      (fun _ => UpstreamOutcome.err none)
      (fun _ => UpstreamOutcome.err none)).1 400
      "\x27prompt\x27 is required (string)" rfl).1
  · exact (C6_catchall (RouteResult.ok [Part.text "hi"])
      (fun _ => UpstreamOutcome.err (some "boom"))
      (fun _ => UpstreamOutcome.err none) none none
      (fun _ => UpstreamOutcome.err none)
      (fun _ => UpstreamOutcome.err none)).2.1 [Part.text "hi"] (some "boom")
      rfl rfl

/-- `limits: { fileSize: 10 * 1024 * 1024 }` (src/index.js lines 43-46). -/
def fileSizeLimit : Nat := 10 * 1024 * 1024

/-- Modelled from the spec: the multipart middleware (multer, an external
collaborator configured in src/index.js with `limits.fileSize`) rejects an
upload whose byte size exceeds the limit with PayloadTooLargeError mapped to
HTTP 413, before the route handler — and hence normalization — runs.  The
enforcement itself lives in the multer package, outside this repository. -/
def uploadSingle {α : Type} (limit : Nat) (file : Option UploadedFile)
    (handler : Option UploadedFile → RouteResult α) : RouteResult α :=
  match file with
  | some f =>
      if f.buffer.length > limit then
        RouteResult.error 413 "PayloadTooLargeError"
      else handler (some f)
  | none => handler none

/-- C7: an attachment exceeding the 10 MiB cap fails with 413 before any
normalization: the outcome is the PayloadTooLargeError for every handler, so
no Part sequence is built and no collaborator is reached; the configured cap
is exactly `10 * 1024 * 1024` bytes. -/
theorem C7_size_cap {α : Type}
    (handler handler2 : Option UploadedFile → RouteResult α)
    (f : UploadedFile) (h : f.buffer.length > fileSizeLimit) :
    uploadSingle fileSizeLimit (some f) handler =
      RouteResult.error 413 "PayloadTooLargeError" ∧
    uploadSingle fileSizeLimit (some f) handler =
      uploadSingle fileSizeLimit (some f) handler2 ∧
    fileSizeLimit = 10 * 1024 * 1024 := by
  refine ⟨?_, ?_, rfl⟩ <;> simp [uploadSingle, h]

/-- Witness for C7 on a 10 MiB + 1 byte image upload. -/
theorem C7_size_cap_witness :
    uploadSingle fileSizeLimit
        (some (UploadedFile.mk (List.replicate (fileSizeLimit + 1) 0) "image/png"))
        (generateImageNormalize none) =
      RouteResult.error 413 "PayloadTooLargeError" ∧
    uploadSingle fileSizeLimit
        (some (UploadedFile.mk (List.replicate (fileSizeLimit + 1) 0) "image/png"))
        (generateImageNormalize none) =
      uploadSingle fileSizeLimit
        (some (UploadedFile.mk (List.replicate (fileSizeLimit + 1) 0) "image/png"))
        (generateFromAudioNormalize none) ∧
    fileSizeLimit = 10 * 1024 * 1024 :=
  C7_size_cap (generateImageNormalize none) (generateFromAudioNormalize none)
    (UploadedFile.mk (List.replicate (fileSizeLimit + 1) 0) "image/png")
    (by simp)

/-- The model identifier of src/index.js as a function of the `MODEL`
environment variable: `const MODEL = "gemini-2.5-flash"` (line 17) reads no
environment variable, so the configured model ignores its argument. -/
def indexMODELOf (_envMODEL : Option String) : String := "gemini-2.5-flash"

/-- The model identifier of src/unnamed/part_000 (line 18):
`process.env.MODEL || "gemini-2.5-flash"` — the environment value when set
and truthy, the fixed default otherwise. -/
def part000MODEL (envMODEL : Option String) : String :=
  match envMODEL with
  | some s => if s == "" then "gemini-2.5-flash" else s
  | none => "gemini-2.5-flash"

/-- Body of the GET /health response. -/
structure HealthBody where
  ok : Bool
  model : String

/-- GET /health (src/index.js lines 52-54): always 200 with
`{ok: true, model: MODEL}`. -/
def healthHandler (model : String) : Nat × HealthBody :=
  (200, { ok := true, model := model })

/-- C8 counterexample: with the `MODEL` environment variable set to
"custom-model", src/index.js still configures the fixed constant — the model
identifier of src/index.js is not environment-driven. -/
theorem C8_model_counterexample :
    indexMODELOf (some "custom-model") = "gemini-2.5-flash" ∧
    ¬ indexMODELOf (some "custom-model") = "custom-model" :=
  ⟨rfl, by decide⟩

/-- C8 amended: in src/index.js the model identifier is the fixed constant
"gemini-2.5-flash" regardless of the environment (only src/unnamed/part_000
reads the `MODEL` environment variable, with that constant as default), and
GET /health always returns 200 `{ok: true, model: <configured model>}`. -/
theorem C8_model_amended (env : Option String) (s m : String)
    (hs : s ≠ "") :
    indexMODELOf env = "gemini-2.5-flash" ∧
    indexMODEL = "gemini-2.5-flash" ∧
    part000MODEL none = "gemini-2.5-flash" ∧
    part000MODEL (some "") = "gemini-2.5-flash" ∧
    part000MODEL (some s) = s ∧
    healthHandler m = (200, HealthBody.mk true m) := by
  refine ⟨rfl, rfl, rfl, rfl, ?_, rfl⟩
  simp [part000MODEL, hs]

/-- Witness for the amended C8. -/
theorem C8_model_amended_witness :
    indexMODELOf (some "custom-model") = "gemini-2.5-flash" ∧
    indexMODEL = "gemini-2.5-flash" ∧
    part000MODEL none = "gemini-2.5-flash" ∧
    part000MODEL (some "") = "gemini-2.5-flash" ∧
    part000MODEL (some "custom-model") = "custom-model" ∧
    healthHandler (indexMODELOf (some "custom-model")) =
      (200, HealthBody.mk true "gemini-2.5-flash") :=
  C8_model_amended (some "custom-model") "custom-model"
    (indexMODELOf (some "custom-model")) (by decide)

/-- C9: the normalizers are pure functions of the request data — structurally
identical inputs produce identical validation outcomes and identical
normalized payloads on every route (no hidden randomness, no cross-request
state). -/
theorem C9_pure_normalizers (b b2 : Option JsValue)
    (file file2 : Option UploadedFile) (hb : b = b2) (hfile : file = file2) :
    generateTextNormalize b = generateTextNormalize b2 ∧
    generateImageNormalize b file = generateImageNormalize b2 file2 ∧
    generateFromDocumentNormalize b file = generateFromDocumentNormalize b2 file2 ∧
    generateFromAudioNormalize b file = generateFromAudioNormalize b2 file2 ∧
    apiChatNormalize b = apiChatNormalize b2 := by
  subst hb
  subst hfile
  exact ⟨rfl, rfl, rfl, rfl, rfl⟩

/-- Witness for C9 at one concrete request. -/
theorem C9_pure_normalizers_witness :
    generateTextNormalize (some (JsValue.obj [("prompt", JsValue.str "hi")])) =
      generateTextNormalize (some (JsValue.obj [("prompt", JsValue.str "hi")])) ∧
    generateImageNormalize (some (JsValue.obj [("prompt", JsValue.str "hi")]))
        (some (UploadedFile.mk [1] "image/png")) =
      generateImageNormalize (some (JsValue.obj [("prompt", JsValue.str "hi")]))
        (some (UploadedFile.mk [1] "image/png")) ∧
    generateFromDocumentNormalize (some (JsValue.obj [("prompt", JsValue.str "hi")]))
        (some (UploadedFile.mk [1] "image/png")) =
      generateFromDocumentNormalize (some (JsValue.obj [("prompt", JsValue.str "hi")]))
        (some (UploadedFile.mk [1] "image/png")) ∧
    generateFromAudioNormalize (some (JsValue.obj [("prompt", JsValue.str "hi")]))
        (some (UploadedFile.mk [1] "image/png")) =
      generateFromAudioNormalize (some (JsValue.obj [("prompt", JsValue.str "hi")]))
        (some (UploadedFile.mk [1] "image/png")) ∧
    apiChatNormalize (some (JsValue.obj [("prompt", JsValue.str "hi")])) =
      apiChatNormalize (some (JsValue.obj [("prompt", JsValue.str "hi")])) :=
  C9_pure_normalizers (some (JsValue.obj [("prompt", JsValue.str "hi")]))
    (some (JsValue.obj [("prompt", JsValue.str "hi")]))
    (some (UploadedFile.mk [1] "image/png"))
    (some (UploadedFile.mk [1] "image/png")) rfl rfl

/-- A value placed verbatim into the outbound `contents` array by
src/unnamed/part_000: the client renders a string as a text part; any other
(truthy) value is forwarded raw. -/
def contentsEntry : Option JsValue → Part
  | some (JsValue.str s) => Part.text s
  | some v => Part.raw v
  | none => Part.raw JsValue.null

/-- POST /generate-text of src/unnamed/part_000 (lines 58-68):
`if (!prompt || typeof prompt !== "string")` → 400; on success
`contents: prompt` — the untrimmed prompt as the single text part. -/
def part000GenerateTextNormalize (b : Option JsValue) : RouteResult (List Part) :=
  match reqPrompt b with
  | some (JsValue.str s) =>
      if s = "" then
        RouteResult.error 400 "\x27prompt\x27 is required (string)"
      else
        RouteResult.ok [Part.text s]
  | _ => RouteResult.error 400 "\x27prompt\x27 is required (string)"

/-- POST /generate-image of src/unnamed/part_000 (lines 81-113):
`if (!prompt)` → 400 first, then the file check, then the same image
allow-list; on success `contents: [prompt, {inlineData}]` with the raw
prompt. -/
def part000GenerateImageNormalize (b : Option JsValue)
    (file : Option UploadedFile) : RouteResult (List Part) :=
  if !truthy (reqPrompt b) then
    RouteResult.error 400 "\x27prompt\x27 is required"
  else
    match file with
    | none => RouteResult.error 400 "\x27image\x27 file is required"
    | some f =>
        if !(imageAllowed.contains f.mimetype) then
          RouteResult.error 415 ("Unsupported image type: " ++ f.mimetype)
        else
          RouteResult.ok [contentsEntry (reqPrompt b),
            Part.inlineData (toB64 f.buffer) f.mimetype]

/-- POST /generate-from-document of src/unnamed/part_000 (lines 116-146):
prompt required, file required, no MIME allow-list; on success
`contents: [prompt, {inlineData}]`. -/
def part000GenerateFromDocumentNormalize (b : Option JsValue)
    (file : Option UploadedFile) : RouteResult (List Part) :=
  if !truthy (reqPrompt b) then
    RouteResult.error 400 "Prompt is required."
  else
    match file with
    | none => RouteResult.error 400 "Document file is required."
    | some f =>
        RouteResult.ok [contentsEntry (reqPrompt b),
          Part.inlineData (toB64 f.buffer) f.mimetype]

/-- POST /generate-from-audio of src/unnamed/part_000 (lines 149-175):
prompt required, file required, no MIME allow-list; on success
`contents: [prompt, {inlineData}]`. -/
def part000GenerateFromAudioNormalize (b : Option JsValue)
    (file : Option UploadedFile) : RouteResult (List Part) :=
  if !truthy (reqPrompt b) then
    RouteResult.error 400 "Prompt is required."
  else
    match file with
    | none => RouteResult.error 400 "Audio file is required."
    | some f =>
        RouteResult.ok [contentsEntry (reqPrompt b),
          Part.inlineData (toB64 f.buffer) f.mimetype]

/-- C10 counterexample: on the image route with a valid PNG upload and no
prompt, src/index.js succeeds with the inline part alone while
src/unnamed/part_000 rejects the request with 400 — the two versions do not
implement the same request-to-normalized-payload function. -/
theorem C10_versions_counterexample :
    generateImageNormalize (some (JsValue.obj []))
        (some (UploadedFile.mk [1, 2, 3] "image/png")) =
      RouteResult.ok [Part.inlineData "AQID" "image/png"] ∧
    part000GenerateImageNormalize (some (JsValue.obj []))
        (some (UploadedFile.mk [1, 2, 3] "image/png")) =
      RouteResult.error 400 "\x27prompt\x27 is required" ∧
    RouteResult.ok [Part.inlineData "AQID" "image/png"] ≠
      (RouteResult.error 400 "\x27prompt\x27 is required" :
        RouteResult (List Part)) :=
  ⟨rfl, rfl, fun h => RouteResult.noConfusion h⟩

/-- Whether an optional upload passes an allow-list (trivially true when no
file is attached). -/
def mimeOk (allowed : List String) : Option UploadedFile → Bool
  | none => true
  | some f => allowed.contains f.mimetype

/-- C10 amended: the two versions agree only on a restricted domain — when
the prompt is a non-empty string unchanged by trimming, they produce the same
outcome on the text and image routes, and on the document and audio routes
provided any attached file passes the respective src/index.js allow-list;
outside this domain they diverge (part_000 requires a truthy prompt on every
route, forwards it untrimmed, and omits the document/audio MIME checks, as
the counterexample shows). -/
theorem C10_versions_amended (b : Option JsValue)
    (fileI fileD fileA : Option UploadedFile) (s : String)
    (hp : reqPrompt b = some (JsValue.str s)) (hs : s ≠ "")
    (ht : jsTrim s = s)
    (hd : mimeOk docAllowed fileD = true)
    (ha : mimeOk audioAllowed fileA = true) :
    part000GenerateTextNormalize b = generateTextNormalize b ∧
    part000GenerateImageNormalize b fileI = generateImageNormalize b fileI ∧
    part000GenerateFromDocumentNormalize b fileD =
      generateFromDocumentNormalize b fileD ∧
    part000GenerateFromAudioNormalize b fileA =
      generateFromAudioNormalize b fileA := by
  have hpt : promptTextOf (some (JsValue.str s)) = s := by
    simp [promptTextOf, ht, hs]
  have htr : truthy (some (JsValue.str s)) = true := by
    simp [truthy, hs]
  have hce : contentsEntry (some (JsValue.str s)) = Part.text s := rfl
  refine ⟨?_, ?_, ?_, ?_⟩
  · simp [part000GenerateTextNormalize, generateTextNormalize, hp, hpt, hs]
  · cases fileI with
    | none =>
        simp [part000GenerateImageNormalize, generateImageNormalize,
          attachmentNormalize, hp, htr]
    | some f =>
        by_cases hm : f.mimetype ∈ imageAllowed
        · simp [part000GenerateImageNormalize, generateImageNormalize,
            attachmentNormalize, hp, htr, hm, hce, hpt, hs]
        · simp [part000GenerateImageNormalize, generateImageNormalize,
            attachmentNormalize, hp, htr, hm]
  · cases fileD with
    | none =>
        simp [part000GenerateFromDocumentNormalize,
          generateFromDocumentNormalize, attachmentNormalize, hp, htr]
    | some f =>
        have hm : f.mimetype ∈ docAllowed := by
          simpa [mimeOk] using hd
        simp [part000GenerateFromDocumentNormalize,
          generateFromDocumentNormalize, attachmentNormalize, hp, htr, hm,
          hce, hpt, hs]
  · cases fileA with
    | none =>
        simp [part000GenerateFromAudioNormalize, generateFromAudioNormalize,
          attachmentNormalize, hp, htr]
    | some f =>
        have hm : f.mimetype ∈ audioAllowed := by
          simpa [mimeOk] using ha
        simp [part000GenerateFromAudioNormalize, generateFromAudioNormalize,
          attachmentNormalize, hp, htr, hm, hce, hpt, hs]

/-- Witness for the amended C10 at concrete agreeing requests. -/
theorem C10_versions_amended_witness :
    part000GenerateTextNormalize (some (JsValue.obj [("prompt", JsValue.str "hi")])) =
      generateTextNormalize (some (JsValue.obj [("prompt", JsValue.str "hi")])) ∧
    part000GenerateImageNormalize (some (JsValue.obj [("prompt", JsValue.str "hi")]))
        (some (UploadedFile.mk [1, 2, 3] "image/png")) =
      generateImageNormalize (some (JsValue.obj [("prompt", JsValue.str "hi")]))
        (some (UploadedFile.mk [1, 2, 3] "image/png")) ∧
    part000GenerateFromDocumentNormalize
        (some (JsValue.obj [("prompt", JsValue.str "hi")]))
        (some (UploadedFile.mk [37] "application/pdf")) =
      generateFromDocumentNormalize
        (some (JsValue.obj [("prompt", JsValue.str "hi")]))
        (some (UploadedFile.mk [37] "application/pdf")) ∧
    part000GenerateFromAudioNormalize
        (some (JsValue.obj [("prompt", JsValue.str "hi")]))
        (some (UploadedFile.mk [0] "audio/wav")) =
      generateFromAudioNormalize
        (some (JsValue.obj [("prompt", JsValue.str "hi")]))
        (some (UploadedFile.mk [0] "audio/wav")) :=
  C10_versions_amended (some (JsValue.obj [("prompt", JsValue.str "hi")]))
    (some (UploadedFile.mk [1, 2, 3] "image/png"))
    (some (UploadedFile.mk [37] "application/pdf"))
    (some (UploadedFile.mk [0] "audio/wav")) "hi" rfl (by decide) (by decide)
    (by decide) (by decide)

end GFA
